import Mathlib

/-!
Shallow embedding of the claude-tokenizer repository (a Next.js front-end
plus one API route that forwards text, PDF and image payloads to three
vendor token counters).

Server side (`src/app/api/route.ts`): the `POST` handler branches on the
request content type and the declared `fileType`, calls the vendors, and
reshapes the results into one flat JSON object.  Vendor calls are modelled
as oracle functions collected in `Oracles`; an oracle returning
`Except.error` models the corresponding SDK call throwing.

Client side (`src/components/tokenComponents.tsx`): the handlers
`handleAnalyzeText` / `handleAnalyzeFile`, the `debounce` utility and the
rendering of the metrics panel are embedded as pure functions of the fetch
outcome.
-/

namespace ClaudeTokenizer

/-- The unicode replacement character U+FFFD emitted by `TextDecoder` for
invalid UTF-8 sequences. -/
def replacementChar : Char := Char.ofNat 0xFFFD

/-- Whether a byte is a UTF-8 continuation byte (`0x80..0xBF`). -/
def isCont (b : Nat) : Bool := 0x80 ≤ b && b ≤ 0xBF

/-- Fuelled WHATWG UTF-8 decoder (the semantics of
`new TextDecoder().decode(...)` in the route: non-fatal, invalid bytes
become U+FFFD).  Each step consumes at least one byte, so fuel equal to
the length of the byte list suffices. -/
def utf8DecodeAux : Nat → List Nat → List Char
  | 0, _ => []
  | _, [] => []
  | fuel + 1, b1 :: rest =>
    if b1 ≤ 0x7F then Char.ofNat b1 :: utf8DecodeAux fuel rest
    else if 0xC2 ≤ b1 && b1 ≤ 0xDF then
      match rest with
      | b2 :: rest2 =>
        if isCont b2 then
          Char.ofNat ((b1 - 0xC0) * 0x40 + (b2 - 0x80)) :: utf8DecodeAux fuel rest2
        else replacementChar :: utf8DecodeAux fuel rest
      | [] => [replacementChar]
    else if 0xE0 ≤ b1 && b1 ≤ 0xEF then
      match rest with
      | b2 :: rest2 =>
        if (if b1 = 0xE0 then decide (0xA0 ≤ b2 && b2 ≤ 0xBF)
            else if b1 = 0xED then decide (0x80 ≤ b2 && b2 ≤ 0x9F)
            else isCont b2) then
          match rest2 with
          | b3 :: rest3 =>
            if isCont b3 then
              Char.ofNat ((b1 - 0xE0) * 0x1000 + (b2 - 0x80) * 0x40 + (b3 - 0x80)) ::
                utf8DecodeAux fuel rest3
            else replacementChar :: utf8DecodeAux fuel rest2
          | [] => [replacementChar]
        else replacementChar :: utf8DecodeAux fuel rest
      | [] => [replacementChar]
    else if 0xF0 ≤ b1 && b1 ≤ 0xF4 then
      match rest with
      | b2 :: rest2 =>
        if (if b1 = 0xF0 then decide (0x90 ≤ b2 && b2 ≤ 0xBF)
            else if b1 = 0xF4 then decide (0x80 ≤ b2 && b2 ≤ 0x8F)
            else isCont b2) then
          match rest2 with
          | b3 :: rest3 =>
            if isCont b3 then
              match rest3 with
              | b4 :: rest4 =>
                if isCont b4 then
                  Char.ofNat ((b1 - 0xF0) * 0x40000 + (b2 - 0x80) * 0x1000 +
                      (b3 - 0x80) * 0x40 + (b4 - 0x80)) :: utf8DecodeAux fuel rest4
                else replacementChar :: utf8DecodeAux fuel rest3
              | [] => [replacementChar]
            else replacementChar :: utf8DecodeAux fuel rest2
          | [] => [replacementChar]
        else replacementChar :: utf8DecodeAux fuel rest
      | [] => [replacementChar]
    else replacementChar :: utf8DecodeAux fuel rest

/-- `new TextDecoder().decode(bytes)` as a list of unicode scalars. -/
def utf8Decode (bytes : List Nat) : List Char := utf8DecodeAux bytes.length bytes

/-- `new TextDecoder().decode(bytes)` as a Lean string. -/
def utf8DecodeStr (bytes : List Nat) : String := ⟨utf8Decode bytes⟩

/-- How many UTF-16 code units a unicode scalar occupies: JavaScript's
`String.prototype.length` counts code units, so astral characters count
twice. -/
def utf16Width (c : Char) : Nat := if c.toNat < 0x10000 then 1 else 2

/-- JavaScript `s.length`: the number of UTF-16 code units of `s`. -/
def jsStrLength (s : String) : Nat := s.data.foldl (fun n c => n + utf16Width c) 0

/-- The code points stripped by JavaScript `String.prototype.trim`
(WhiteSpace plus LineTerminator). -/
def jsWhitespace : List Char :=
  [' ', '\t', '\n', '\r', Char.ofNat 0x0B, Char.ofNat 0x0C, Char.ofNat 0xA0,
   Char.ofNat 0x1680, Char.ofNat 0x2000, Char.ofNat 0x2001, Char.ofNat 0x2002,
   Char.ofNat 0x2003, Char.ofNat 0x2004, Char.ofNat 0x2005, Char.ofNat 0x2006,
   Char.ofNat 0x2007, Char.ofNat 0x2008, Char.ofNat 0x2009, Char.ofNat 0x200A,
   Char.ofNat 0x2028, Char.ofNat 0x2029, Char.ofNat 0x202F, Char.ofNat 0x205F,
   Char.ofNat 0x3000, Char.ofNat 0xFEFF]

/-- Whether `String.prototype.trim` strips the character `c`. -/
def jsIsWhitespace (c : Char) : Bool := jsWhitespace.contains c

/-- JavaScript `s.trim()`. -/
def jsTrim (s : String) : String :=
  ⟨((s.data.dropWhile jsIsWhitespace).reverse.dropWhile jsIsWhitespace).reverse⟩

/-- JavaScript `v || dflt` for a possibly-absent string value: `null`,
`undefined` and the empty string are falsy and give `dflt`. -/
def jsStrOr (v : Option String) (dflt : String) : String :=
  match v with
  | some s => if s = "" then dflt else s
  | none => dflt

/-- The base64 alphabet used by `Buffer.toString('base64')`. -/
def base64Alphabet : List Char :=
  "ABCDEFGHIJKLMNOPQRSTUVWXYZabcdefghijklmnopqrstuvwxyz0123456789+/".data

/-- The base64 digit for a 6-bit value. -/
def b64c (n : Nat) : Char := base64Alphabet.getD n 'A'

/-- `Buffer.from(bytes).toString('base64')`: standard base64 with `=`
padding, three bytes per four output characters. -/
def base64Encode : List Nat → String
  | [] => ""
  | [b1] => ⟨[b64c (b1 / 4), b64c (b1 % 4 * 16), '=', '=']⟩
  | [b1, b2] => ⟨[b64c (b1 / 4), b64c (b1 % 4 * 16 + b2 / 16), b64c (b2 % 16 * 4), '=']⟩
  | b1 :: b2 :: b3 :: rest =>
    (⟨[b64c (b1 / 4), b64c (b1 % 4 * 16 + b2 / 16), b64c (b2 % 16 * 4 + b3 / 64),
       b64c (b3 % 64)]⟩ : String) ++ base64Encode rest

/-- Default model used if none is provided (`DEFAULT_MODEL` in the route). -/
def DEFAULT_MODEL : String := "claude-3-7-sonnet-20250219"

/-- A file arriving through `formData.get('file')`: its `name`, its declared
media `type`, and its raw `bytes` (the `Uint8Array` made from
`file.arrayBuffer()`). -/
structure UploadedFile where
  name : String
  type : String
  bytes : List Nat
deriving DecidableEq, Repr

/-- The two request shapes the route distinguishes by content type:
a `multipart/form-data` body with optional `file`, `model` and `fileType`
fields, or a JSON body with optional `text` and `model` fields. -/
inductive ApiRequest where
  | multipart (file : Option UploadedFile) (model : Option String) (fileType : Option String)
  | jsonBody (text : Option String) (model : Option String)
deriving DecidableEq, Repr

/-- The flat success body `{...count, fileChars, model, gpt4oTokens,
geminiTokens}` the route returns with status 200; spreading `count`
contributes the vendor's `input_tokens` field. -/
structure SuccessBody where
  input_tokens : Nat
  fileChars : Nat
  model : String
  gpt4oTokens : Option Nat
  geminiTokens : Option Nat
deriving DecidableEq, Repr

/-- The route's possible responses: a 200 with a `SuccessBody`, or the
single catch-all `Response.json({error: ...}, {status: 500})` whose body
holds exactly one `error` field. -/
inductive ApiResponse where
  | ok (body : SuccessBody)
  | serverError (error : String)
deriving DecidableEq, Repr

/-- The external vendor calls the route makes, as oracle functions.  An
`Except.error` result models the SDK call throwing.  `countTextTokens`,
`countPdfTokens` and `countImageTokens` are the three
`anthropic.beta.messages.countTokens` call shapes (text content, base64
PDF document block, base64 image block with a media type);
`gpt4oEncodeLen` is `encodingForModel('gpt-4o').encode(text).length`;
`geminiCount` is the hosted Gemini `countTokens` call, and
`geminiKeyPresent` models whether `process.env.GEMINI_API_KEY` is set. -/
structure Oracles where
  countTextTokens : String → String → Except String Nat
  countPdfTokens : String → String → Except String Nat
  countImageTokens : String → String → String → Except String Nat
  gpt4oEncodeLen : String → Except String Nat
  geminiCount : String → Except String Nat
  geminiKeyPresent : Bool

/-- `getGPT4oTokenCount` from the route: encode with the gpt-4o encoder and
return the token count, or `null` if the encoder throws. -/
def getGPT4oTokenCount (o : Oracles) (text : String) : Option Nat :=
  match o.gpt4oEncodeLen text with
  | .ok n => some n
  | .error _ => none

/-- `getGeminiTokenCount` from the route: `null` when the Gemini key is
absent, the hosted count on success, `null` if the call throws. -/
def getGeminiTokenCount (o : Oracles) (text : String) : Option Nat :=
  if o.geminiKeyPresent then
    match o.geminiCount text with
    | .ok n => some n
    | .error _ => none
  else none

/-- The media type the image branch sends to Anthropic: `image/png`,
`image/gif` and `image/webp` pass through, everything else defaults to
`image/jpeg`. -/
def imageMediaType (t : String) : String :=
  if t = "image/png" then "image/png"
  else if t = "image/gif" then "image/gif"
  else if t = "image/webp" then "image/webp"
  else "image/jpeg"

/-- The `POST` handler of `src/app/api/route.ts`.  Multipart requests with
`fileType` `pdf` or `image` return from their branch after the matching
Anthropic call; every other shape falls through to the common Anthropic
text call, with text-file bytes decoded as UTF-8 and the GPT-4o/Gemini
estimators attempted only on the text paths.  `fileChars` is set to the
raw byte length of an uploaded file before any branching.  Any vendor
throw is caught by the surrounding try/catch and becomes the uniform 500
response. -/
def POST (o : Oracles) (req : ApiRequest) : ApiResponse :=
  match req with
  | .multipart file formModel fileType =>
    let model := jsStrOr formModel DEFAULT_MODEL
    match file with
    | some f =>
      let fileChars := f.bytes.length
      if fileType = some "pdf" then
        match o.countPdfTokens model (base64Encode f.bytes) with
        | .ok n => .ok ⟨n, fileChars, model, none, none⟩
        | .error _ => .serverError "Failed to count tokens"
      else if fileType = some "image" then
        match o.countImageTokens model (imageMediaType f.type) (base64Encode f.bytes) with
        | .ok n => .ok ⟨n, fileChars, model, none, none⟩
        | .error _ => .serverError "Failed to count tokens"
      else
        let text := utf8DecodeStr f.bytes
        let gpt4oTokens := getGPT4oTokenCount o text
        let geminiTokens := getGeminiTokenCount o text
        match o.countTextTokens model text with
        | .ok n => .ok ⟨n, fileChars, model, gpt4oTokens, geminiTokens⟩
        | .error _ => .serverError "Failed to count tokens"
    | none =>
      match o.countTextTokens model "" with
      | .ok n => .ok ⟨n, 0, model, none, none⟩
      | .error _ => .serverError "Failed to count tokens"
  | .jsonBody textOpt modelOpt =>
    let text := jsStrOr textOpt ""
    let model := jsStrOr modelOpt DEFAULT_MODEL
    let gpt4oTokens := getGPT4oTokenCount o text
    let geminiTokens := getGeminiTokenCount o text
    match o.countTextTokens model text with
    | .ok n => .ok ⟨n, 0, model, gpt4oTokens, geminiTokens⟩
    | .error _ => .serverError "Failed to count tokens"

/-- The single Anthropic ("primary vendor") call a given request leads the
handler to make: the PDF document call, the image call, or the common text
call on the text the request resolves to.  Mirrors the dispatch in `POST`
so that "the primary call throws" can be stated per request. -/
def primaryCallResult (o : Oracles) (req : ApiRequest) : Except String Nat :=
  match req with
  | .multipart file formModel fileType =>
    let model := jsStrOr formModel DEFAULT_MODEL
    match file with
    | some f =>
      if fileType = some "pdf" then o.countPdfTokens model (base64Encode f.bytes)
      else if fileType = some "image" then
        o.countImageTokens model (imageMediaType f.type) (base64Encode f.bytes)
      else o.countTextTokens model (utf8DecodeStr f.bytes)
    | none => o.countTextTokens model ""
  | .jsonBody textOpt modelOpt =>
    o.countTextTokens (jsStrOr modelOpt DEFAULT_MODEL) (jsStrOr textOpt "")

/-- The text a request resolves to when the handler treats it as a text
payload (JSON text, or an uploaded file whose declared kind is neither
`pdf` nor `image`, decoded as UTF-8); `none` for the PDF/image branches
and for a multipart request without a file. -/
def textPayloadOf : ApiRequest → Option String
  | .multipart (some f) _ fileType =>
    if fileType = some "pdf" then none
    else if fileType = some "image" then none
    else some (utf8DecodeStr f.bytes)
  | .multipart none _ _ => none
  | .jsonBody textOpt _ => some (jsStrOr textOpt "")

/-- The model identifier a request resolves to (form/JSON `model` field
when truthy, else `DEFAULT_MODEL`). -/
def modelOf : ApiRequest → String
  | .multipart _ m _ => jsStrOr m DEFAULT_MODEL
  | .jsonBody _ m => jsStrOr m DEFAULT_MODEL

/-- The Claude token figure the client computes from the server's
`input_tokens`: `data.input_tokens > 7 ? data.input_tokens - 7 : 0`
(the fixed per-request overhead of 7 subtracted and floored at zero). -/
def displayedTokens (n : Int) : Int := if n > 7 then n - 7 else 0

/-- The client's `stats` state: Claude tokens (or `null`), the two optional
estimator counts, the character figure, and the optional file name. -/
structure ClientStats where
  tokens : Option Int
  gpt4oTokens : Option Nat
  geminiTokens : Option Nat
  chars : Nat
  fileName : Option String
deriving DecidableEq, Repr

/-- The initial/cleared `stats` value
`{tokens: null, gpt4oTokens: null, geminiTokens: null, chars: 0}`. -/
def emptyStats : ClientStats := ⟨none, none, none, 0, none⟩

/-- What a `fetch('/api', ...)` call can come back as for the client:
a parsed success body, a response with `!response.ok` (which the handler
turns into a thrown error), or a network-level throw. -/
inductive FetchOutcome where
  | success (data : SuccessBody)
  | httpError (status : Nat)
  | networkError
deriving Repr

/-- How the client sees a server `ApiResponse`: a 200 parses into its
body, the 500 error response fails the `response.ok` check. -/
def outcomeOfResponse : ApiResponse → FetchOutcome
  | .ok body => .success body
  | .serverError _ => .httpError 500

/-- The outcome of `handleAnalyzeText`: the `stats` it sets, the `error`
it sets, and whether it reached the `fetch` call at all. -/
structure TextAnalysisResult where
  stats : ClientStats
  error : Option String
  apiCalled : Bool
deriving DecidableEq, Repr

/-- `handleAnalyzeText` from `tokenComponents.tsx`: empty or
whitespace-only text short-circuits to empty stats without fetching;
otherwise the stats are rebuilt from the response data (with the overhead
subtraction on `input_tokens` and `chars` set to the local text length),
and a failed fetch sets the error message and nulls the token figures
while keeping the local character count. -/
def handleAnalyzeText (outcome : FetchOutcome) (text : String) : TextAnalysisResult :=
  if jsTrim text = "" then
    ⟨emptyStats, none, false⟩
  else
    match outcome with
    | .success data =>
      ⟨⟨some (displayedTokens data.input_tokens), data.gpt4oTokens, data.geminiTokens,
        jsStrLength text, none⟩, none, true⟩
    | _ =>
      ⟨⟨none, none, none, jsStrLength text, none⟩,
        some "Failed to analyze text. Please try again.", true⟩

/-- The outcome of `handleAnalyzeFile`: the `stats` and `error` it sets. -/
structure FileAnalysisResult where
  stats : ClientStats
  error : Option String
deriving DecidableEq, Repr

/-- `handleAnalyzeFile` from `tokenComponents.tsx`: returns `none` when no
file is selected (the early `if (!file) return`); on success the stats take
the overhead-adjusted token count, the server's estimator fields, and
`chars: data.fileChars || 0` together with the file's name; on failure the
stats reset to empty and the error message is set. -/
def handleAnalyzeFile (file : Option UploadedFile) (outcome : FetchOutcome) :
    Option FileAnalysisResult :=
  match file with
  | none => none
  | some f =>
    match outcome with
    | .success data =>
      some ⟨⟨some (displayedTokens data.input_tokens), data.gpt4oTokens, data.geminiTokens,
        (if data.fileChars = 0 then 0 else data.fileChars), some f.name⟩, none⟩
    | _ => some ⟨emptyStats, some "Failed to analyze file. Please try again."⟩

/-- What one metric cell of the panel shows: a number, the `—` dash, or
the animated `...` pulse shown while processing. -/
inductive MetricDisplay where
  | num (n : Int)
  | dash
  | pulse
deriving DecidableEq, Repr

/-- The `tokens` prop `TokenizerInput` passes to `TokenMetrics`:
`stats.tokens ?? 0`. -/
def tokensProp (t : Option Int) : Int := t.getD 0

/-- The Claude Tokens cell of `TokenMetrics`: the pulse while processing,
otherwise the `tokens` number. -/
def claudeTokensCell (isProcessing : Bool) (tokens : Int) : MetricDisplay :=
  if isProcessing then .pulse else .num tokens

/-- The GPT-4o Tokens cell: rendered only when `fileType === 'text' ||
!fileName`; inside, the pulse while processing, the number when non-null,
and the dash for `null`. -/
def gpt4oCell (fileType : String) (fileName : Option String) (isProcessing : Bool)
    (v : Option Nat) : Option MetricDisplay :=
  if fileType = "text" ∨ fileName = none then
    some (if isProcessing then .pulse else
      match v with
      | some n => .num n
      | none => .dash)
  else none

/-- The Gemini Tokens cell: same guard and rendering as the GPT-4o cell,
reading the `geminiTokens` value. -/
def geminiCell (fileType : String) (fileName : Option String) (isProcessing : Bool)
    (v : Option Nat) : Option MetricDisplay :=
  if fileType = "text" ∨ fileName = none then
    some (if isProcessing then .pulse else
      match v with
      | some n => .num n
      | none => .dash)
  else none

/-- One `setTimeout` the debounce utility has issued: its timer id, the
argument the scheduled call will be made with, and whether `clearTimeout`
has since cancelled it. -/
structure ScheduledCall (α : Type) where
  id : Nat
  arg : α
  cancelled : Bool
deriving DecidableEq, Repr

/-- The observable state of one `debounce(func, delay)` closure: every
timer it ever issued (cancelled ones kept, marked), a fresh-id counter,
and the closure's `timeoutId` variable (the id of the most recently
scheduled timer, `none` before the first call). -/
structure DebounceState (α : Type) where
  timers : List (ScheduledCall α)
  nextId : Nat
  timeoutId : Option Nat
deriving Repr

/-- The state of a `debounce` closure before its first invocation. -/
def debounceInit (α : Type) : DebounceState α := ⟨[], 0, none⟩

/-- One invocation of the debounced function with argument `a`:
`clearTimeout(timeoutId)` cancels the timer `timeoutId` points at, then
`timeoutId = setTimeout(() => func(...args), delay)` schedules a fresh
timer carrying `a` and stores its id. -/
def debounceCall {α : Type} (s : DebounceState α) (a : α) : DebounceState α :=
  let cleared := s.timers.map fun t =>
    if s.timeoutId = some t.id then { t with cancelled := true } else t
  ⟨cleared ++ [⟨s.nextId, a, false⟩], s.nextId + 1, some s.nextId⟩

/-- The debounce state after a whole sequence of invocations, starting
from the fresh closure. -/
def runDebounce {α : Type} (events : List α) : DebounceState α :=
  events.foldl debounceCall (debounceInit α)

/-- The arguments of the timers that are still pending (scheduled and not
cancelled): if one of them fires, `func` runs with that argument. -/
def pendingArgs {α : Type} (s : DebounceState α) : List α :=
  (s.timers.filter fun t => !t.cancelled).map (·.arg)

/-- A vendor environment in which every call succeeds. -/
def okOracle : Oracles :=
  { countTextTokens := fun _ _ => .ok 5
    countPdfTokens := fun _ _ => .ok 6
    countImageTokens := fun _ _ _ => .ok 7
    gpt4oEncodeLen := fun _ => .ok 8
    geminiCount := fun _ => .ok 9
    geminiKeyPresent := true }

/-- A vendor environment in which every external call throws and the
Gemini key is absent. -/
def failOracle : Oracles :=
  { countTextTokens := fun _ _ => .error "vendor call threw"
    countPdfTokens := fun _ _ => .error "vendor call threw"
    countImageTokens := fun _ _ _ => .error "vendor call threw"
    gpt4oEncodeLen := fun _ => .error "vendor call threw"
    geminiCount := fun _ => .error "vendor call threw"
    geminiKeyPresent := false }

/-- A vendor environment in which the primary vendor works but the GPT-4o
encoder throws and the Gemini credential is absent. -/
def degradedOracle : Oracles :=
  { countTextTokens := fun _ _ => .ok 42
    countPdfTokens := fun _ _ => .ok 6
    countImageTokens := fun _ _ _ => .ok 7
    gpt4oEncodeLen := fun _ => .error "encoder threw"
    geminiCount := fun _ => .error "gemini call threw"
    geminiKeyPresent := false }

/-- A two-byte text file holding the UTF-8 encoding of the single
character U+00E9. -/
def exTextFile : UploadedFile :=
  { name := "e.txt", type := "text/plain", bytes := [0xC3, 0xA9] }

/-- A 100-byte text file: 98 ASCII letters followed by the two-byte UTF-8
encoding of U+00E9, so it decodes to 99 characters. -/
def exFile100 : UploadedFile :=
  { name := "big.txt", type := "text/plain", bytes := List.replicate 98 0x61 ++ [0xC3, 0xA9] }

/-- An image file whose media type is outside the supported set. -/
def exImageFile : UploadedFile :=
  { name := "pic.bmp", type := "image/bmp", bytes := [0, 1, 2] }

/-- The estimator field is `null` whenever the GPT-4o encoder throws. -/
lemma getGPT4oTokenCount_eq_none {o : Oracles} {t : String}
    (h : ∃ e, o.gpt4oEncodeLen t = .error e) : getGPT4oTokenCount o t = none := by
  obtain ⟨e, he⟩ := h
  unfold getGPT4oTokenCount
  rw [he]

/-- The Gemini field is `null` whenever the credential is absent or the
hosted call throws. -/
lemma getGeminiTokenCount_eq_none {o : Oracles} {t : String}
    (h : o.geminiKeyPresent = false ∨ ∃ e, o.geminiCount t = .error e) :
    getGeminiTokenCount o t = none := by
  unfold getGeminiTokenCount
  rcases h with h | ⟨e, he⟩
  · simp [h]
  · cases hk : o.geminiKeyPresent
    · simp
    · simp [he]

/-- On the text-file path (declared kind neither `pdf` nor `image`), the
handler decodes the bytes, attempts both estimators, and runs the common
Anthropic text call with `fileChars` already set to the byte length. -/
lemma POST_text_file (o : Oracles) (f : UploadedFile) (m ft : Option String)
    (h1 : ft ≠ some "pdf") (h2 : ft ≠ some "image") :
    POST o (.multipart (some f) m ft) =
      (match o.countTextTokens (jsStrOr m DEFAULT_MODEL) (utf8DecodeStr f.bytes) with
       | .ok n =>
         .ok ⟨n, f.bytes.length, jsStrOr m DEFAULT_MODEL,
           getGPT4oTokenCount o (utf8DecodeStr f.bytes),
           getGeminiTokenCount o (utf8DecodeStr f.bytes)⟩
       | .error _ => .serverError "Failed to count tokens") := by
  simp only [POST]
  rw [if_neg h1, if_neg h2]

/-- On the text-file path, a 200 response reports the raw byte length of
the file as `fileChars`. -/
lemma POST_text_file_fileChars (o : Oracles) (f : UploadedFile) (m ft : Option String)
    (h1 : ft ≠ some "pdf") (h2 : ft ≠ some "image") (body : SuccessBody)
    (hok : POST o (.multipart (some f) m ft) = .ok body) :
    body.fileChars = f.bytes.length := by
  rw [POST_text_file o f m ft h1 h2] at hok
  cases hres : o.countTextTokens (jsStrOr m DEFAULT_MODEL) (utf8DecodeStr f.bytes) with
  | ok n => rw [hres] at hok; cases hok; rfl
  | error e => rw [hres] at hok; cases hok

/-- Invariant of a debounce closure: any timer still pending is the one
the closure's `timeoutId` points at. -/
def DebounceInv {α : Type} (s : DebounceState α) : Prop :=
  ∀ t ∈ s.timers, t.cancelled = false → s.timeoutId = some t.id

lemma debounceInv_init (α : Type) : DebounceInv (debounceInit α) := by
  intro t ht
  cases ht

/-- After an invocation, every previously issued timer is cancelled. -/
lemma debounceCall_clears {α : Type} {s : DebounceState α} (hinv : DebounceInv s) :
    ∀ u ∈ s.timers.map (fun t =>
      if s.timeoutId = some t.id then { t with cancelled := true } else t),
      u.cancelled = true := by
  intro u hu
  obtain ⟨t, ht, rfl⟩ := List.mem_map.mp hu
  by_cases h : s.timeoutId = some t.id
  · simp [h]
  · rw [if_neg h]
    cases hc : t.cancelled
    · exact absurd (hinv t ht hc) h
    · rfl

lemma debounceInv_call {α : Type} {s : DebounceState α} (hinv : DebounceInv s) (a : α) :
    DebounceInv (debounceCall s a) := by
  intro t ht hc
  simp only [debounceCall, List.mem_append, List.mem_singleton] at ht
  rcases ht with ht | rfl
  · exact absurd (debounceCall_clears hinv t ht) (by simp [hc])
  · rfl

/-- After an invocation with argument `a`, the only pending timer is the
freshly scheduled one, carrying `a`. -/
lemma pendingArgs_debounceCall {α : Type} {s : DebounceState α} (hinv : DebounceInv s)
    (a : α) : pendingArgs (debounceCall s a) = [a] := by
  unfold pendingArgs debounceCall
  rw [List.filter_append, List.filter_eq_nil_iff.mpr]
  · simp
  · intro t ht
    simp [debounceCall_clears hinv t ht]

lemma debounceInv_foldl {α : Type} (events : List α) :
    ∀ s : DebounceState α, DebounceInv s → DebounceInv (events.foldl debounceCall s) := by
  induction events with
  | nil => intro s hs; exact hs
  | cons a rest ih =>
    intro s hs
    exact ih (debounceCall s a) (debounceInv_call hs a)

lemma debounceInv_run {α : Type} (events : List α) : DebounceInv (runDebounce events) :=
  debounceInv_foldl events (debounceInit α) (debounceInv_init α)

lemma timers_length_debounceCall {α : Type} (s : DebounceState α) (a : α) :
    (debounceCall s a).timers.length = s.timers.length + 1 := by
  simp [debounceCall]

lemma timers_length_foldl {α : Type} (events : List α) :
    ∀ s : DebounceState α, (events.foldl debounceCall s).timers.length =
      s.timers.length + events.length := by
  induction events with
  | nil => intro s; rfl
  | cons a rest ih =>
    intro s
    rw [List.foldl_cons, ih, timers_length_debounceCall, List.length_cons]
    omega

/-- C3: for every empty or whitespace-only text input, `handleAnalyzeText`
short-circuits without reaching the fetch (so no vendor is ever called)
and sets the stats to the empty result, whose `tokens` field is `null`
and whose `chars` field is `0`, with no error. -/
theorem C3_empty_text_short_circuits (outcome : FetchOutcome) (text : String)
    (h : jsTrim text = "") :
    handleAnalyzeText outcome text = ⟨emptyStats, none, false⟩ ∧
    emptyStats.tokens = none ∧ emptyStats.chars = 0 := by
  refine ⟨?_, rfl, rfl⟩
  unfold handleAnalyzeText
  rw [if_pos h]

/-- Witness for C3 at the concrete whitespace-only input `"  "` with a
network-failure fetch outcome. -/
theorem C3_witness :
    handleAnalyzeText .networkError "  " = ⟨emptyStats, none, false⟩ ∧
    emptyStats.tokens = none ∧ emptyStats.chars = 0 :=
  C3_empty_text_short_circuits .networkError "  " (by decide)

/-- C7: the Claude token figure the client computes from the server's
`input_tokens` is `input_tokens - 7` when `input_tokens > 7` and `0`
otherwise, i.e. `max (input_tokens - 7) 0`, and is therefore never
negative. -/
theorem C7_displayed_tokens_clamped (n : Int) :
    displayedTokens n = max (n - 7) 0 ∧ 0 ≤ displayedTokens n := by
  unfold displayedTokens
  constructor
  · rcases lt_or_le 7 n with h | h
    · rw [if_pos h, max_eq_left (by omega)]
    · rw [if_neg (by omega), max_eq_right (by omega)]
  · split <;> omega

/-- C9: in the debounce utility, every new invocation cancels the pending
scheduled dispatch before scheduling its own, so after any invocation
sequence ending with argument `a` exactly one dispatch is pending and it
carries `a` (the latest text); all `events.length` earlier timers were
issued and are now invalidated, not merely ignored. -/
theorem C9_debounce_latest_pending (α : Type) (events : List α) (a : α) :
    pendingArgs (runDebounce (events ++ [a])) = [a] ∧
    (runDebounce (events ++ [a])).timers.length = events.length + 1 := by
  have hrun : runDebounce (events ++ [a]) = debounceCall (runDebounce events) a := by
    unfold runDebounce
    rw [List.foldl_append]
    rfl
  constructor
  · rw [hrun]
    exact pendingArgs_debounceCall (debounceInv_run events) a
  · rw [hrun, timers_length_debounceCall]
    unfold runDebounce
    rw [timers_length_foldl]
    simp [debounceInit]

/-- C10: when not processing, a `null` client `tokens` metric is rendered
in the Claude Tokens cell as the number `0` (through the `?? 0` prop),
while `null` GPT-4o and Gemini metrics are rendered as the dash whenever
their cells are shown. -/
theorem C10_null_metrics_render (ft : String) (fn : Option String)
    (h : ft = "text" ∨ fn = none) :
    claudeTokensCell false (tokensProp none) = .num 0 ∧
    gpt4oCell ft fn false none = some .dash ∧
    geminiCell ft fn false none = some .dash := by
  refine ⟨rfl, ?_, ?_⟩
  · unfold gpt4oCell
    rw [if_pos h]
    rfl
  · unfold geminiCell
    rw [if_pos h]
    rfl

/-- Witness for C10 at the concrete text-mode panel state. -/
theorem C10_witness :
    claudeTokensCell false (tokensProp none) = .num 0 ∧
    gpt4oCell "text" none false none = some .dash ∧
    geminiCell "text" none false none = some .dash :=
  C10_null_metrics_render "text" none (Or.inl rfl)

/-- C4: whenever the Anthropic call a request leads to throws, the
handler's catch returns the 500 response whose body is exactly
`{error: "Failed to count tokens"}`; no partial result is returned. -/
theorem C4_primary_throw_gives_500 (o : Oracles) (req : ApiRequest) (e : String)
    (h : primaryCallResult o req = .error e) :
    POST o req = .serverError "Failed to count tokens" := by
  cases req with
  | multipart file m ft =>
    cases file with
    | some f =>
      simp only [primaryCallResult] at h
      simp only [POST]
      by_cases hpdf : ft = some "pdf"
      · rw [if_pos hpdf] at h ⊢
        rw [h]
      · rw [if_neg hpdf] at h ⊢
        by_cases himg : ft = some "image"
        · rw [if_pos himg] at h ⊢
          rw [h]
        · rw [if_neg himg] at h ⊢
          rw [h]
    | none =>
      simp only [primaryCallResult] at h
      simp only [POST]
      rw [h]
  | jsonBody textOpt modelOpt =>
    simp only [primaryCallResult] at h
    simp only [POST]
    rw [h]

/-- Witness for C4: with every vendor call throwing, a JSON text request
gets the uniform 500 error body. -/
theorem C4_witness :
    POST failOracle (.jsonBody (some "hello") none) = .serverError "Failed to count tokens" :=
  C4_primary_throw_gives_500 failOracle (.jsonBody (some "hello") none)
    "vendor call threw" rfl

/-- C6: a multipart request whose declared kind is `pdf` or `image` never
reaches the estimator calls, so a success response carries `null` for both
`gpt4oTokens` and `geminiTokens`, whatever the vendor environment. -/
theorem C6_pdf_image_null_estimators (o : Oracles) (file : Option UploadedFile)
    (m ft : Option String) (hft : ft = some "pdf" ∨ ft = some "image")
    (body : SuccessBody)
    (hok : POST o (.multipart file m ft) = .ok body) :
    body.gpt4oTokens = none ∧ body.geminiTokens = none := by
  cases file with
  | some f =>
    rcases hft with rfl | rfl
    · simp only [POST] at hok
      rw [if_true] at hok
      cases hres : o.countPdfTokens (jsStrOr m DEFAULT_MODEL) (base64Encode f.bytes) with
      | ok n => rw [hres] at hok; cases hok; exact ⟨rfl, rfl⟩
      | error e => rw [hres] at hok; cases hok
    · simp only [POST] at hok
      rw [if_true] at hok
      cases hres : o.countImageTokens (jsStrOr m DEFAULT_MODEL) (imageMediaType f.type)
          (base64Encode f.bytes) with
      | ok n => rw [hres] at hok; cases hok; exact ⟨rfl, rfl⟩
      | error e => rw [hres] at hok; cases hok
  | none =>
    simp only [POST] at hok
    cases hres : o.countTextTokens (jsStrOr m DEFAULT_MODEL) "" with
    | ok n => rw [hres] at hok; cases hok; exact ⟨rfl, rfl⟩
    | error e => rw [hres] at hok; cases hok

/-- Witness for C6 at a concrete PDF upload in the all-succeeding vendor
environment. -/
theorem C6_witness :
    (⟨6, 2, DEFAULT_MODEL, none, none⟩ : SuccessBody).gpt4oTokens = none ∧
    (⟨6, 2, DEFAULT_MODEL, none, none⟩ : SuccessBody).geminiTokens = none :=
  C6_pdf_image_null_estimators okOracle (some exTextFile) none (some "pdf")
    (Or.inl rfl) _ (by decide)

/-- C8: on the image branch the media type sent to Anthropic is the file's
own media type exactly when it is `image/png`, `image/gif` or
`image/webp`, and `image/jpeg` for every other type, while a success
response reports `fileChars` as the raw byte length of the file. -/
theorem C8_image_media_type_and_chars (o : Oracles) (f : UploadedFile)
    (m : Option String) (n : Nat)
    (h : o.countImageTokens (jsStrOr m DEFAULT_MODEL) (imageMediaType f.type)
      (base64Encode f.bytes) = .ok n) :
    POST o (.multipart (some f) m (some "image")) =
      .ok ⟨n, f.bytes.length, jsStrOr m DEFAULT_MODEL, none, none⟩ ∧
    ((f.type = "image/png" ∨ f.type = "image/gif" ∨ f.type = "image/webp") →
      imageMediaType f.type = f.type) ∧
    (f.type ≠ "image/png" → f.type ≠ "image/gif" → f.type ≠ "image/webp" →
      imageMediaType f.type = "image/jpeg") := by
  refine ⟨?_, ?_, ?_⟩
  · simp only [POST]
    rw [if_true, h, if_neg (by decide : ¬(some "image" = some "pdf"))]
  · rintro (h1 | h1 | h1) <;> rw [h1] <;> decide
  · intro h1 h2 h3
    unfold imageMediaType
    rw [if_neg h1, if_neg h2, if_neg h3]

/-- Witness for C8 at a concrete BMP image (outside the supported set,
hence mapped to `image/jpeg`). -/
theorem C8_witness :
    POST okOracle (.multipart (some exImageFile) none (some "image")) =
      .ok ⟨7, exImageFile.bytes.length, jsStrOr none DEFAULT_MODEL, none, none⟩ ∧
    ((exImageFile.type = "image/png" ∨ exImageFile.type = "image/gif" ∨
      exImageFile.type = "image/webp") → imageMediaType exImageFile.type = exImageFile.type) ∧
    (exImageFile.type ≠ "image/png" → exImageFile.type ≠ "image/gif" →
      exImageFile.type ≠ "image/webp" → imageMediaType exImageFile.type = "image/jpeg") :=
  C8_image_media_type_and_chars okOracle exImageFile none 7 rfl

/-- C1 counterexample: a two-byte text file holding the UTF-8 encoding of
the single character U+00E9 is reported with `fileChars = 2` (the raw byte
length), while its bytes decode to a text of character length 1, so the
success response's `fileChars` is not the decoded character length. -/
theorem C1_counterexample :
    ∃ body : SuccessBody,
      POST okOracle (.multipart (some exTextFile) none (some "text")) = .ok body ∧
      body.fileChars = 2 ∧
      jsStrLength (utf8DecodeStr exTextFile.bytes) = 1 ∧
      body.fileChars ≠ jsStrLength (utf8DecodeStr exTextFile.bytes) :=
  ⟨⟨5, 2, DEFAULT_MODEL, some 8, some 9⟩, by decide, rfl, by decide, by decide⟩

/-- C1 as amended: for every multipart request with declared kind `text`
(or any unknown/absent kind, which defaults to text handling), the
`fileChars` field of the success response equals the raw byte length of
the file, which coincides with the decoded character length only when the
decoding is length-preserving (e.g. pure ASCII). -/
theorem C1_amended_fileChars_byte_length (o : Oracles) (f : UploadedFile)
    (m ft : Option String) (h1 : ft ≠ some "pdf") (h2 : ft ≠ some "image")
    (body : SuccessBody)
    (hok : POST o (.multipart (some f) m ft) = .ok body) :
    body.fileChars = f.bytes.length :=
  POST_text_file_fileChars o f m ft h1 h2 body hok

/-- Witness for the amended C1 at the concrete two-byte text file. -/
theorem C1_witness :
    (⟨5, 2, DEFAULT_MODEL, some 8, some 9⟩ : SuccessBody).fileChars =
      exTextFile.bytes.length :=
  C1_amended_fileChars_byte_length okOracle exTextFile none (some "text")
    (by decide) (by decide) _ (by decide)

/-- C2 counterexample: a 100-byte plain-text file whose last character is
two-byte UTF-8 yields `fileChars = 100` on the server (the byte length)
and a client-displayed `chars` of 100, but the file's decoded character
count is 99, so the displayed metric does not reflect the decoded
character count. -/
theorem C2_counterexample :
    ∃ (body : SuccessBody) (res : FileAnalysisResult),
      POST okOracle (.multipart (some exFile100) none (some "text")) = .ok body ∧
      handleAnalyzeFile (some exFile100) (outcomeOfResponse (.ok body)) = some res ∧
      exFile100.bytes.length = 100 ∧
      body.fileChars = 100 ∧
      res.stats.chars = 100 ∧
      jsStrLength (utf8DecodeStr exFile100.bytes) = 99 ∧
      res.stats.chars ≠ jsStrLength (utf8DecodeStr exFile100.bytes) :=
  ⟨⟨5, 100, DEFAULT_MODEL, some 8, some 9⟩,
   ⟨⟨some 0, some 8, some 9, 100, some "big.txt"⟩, none⟩,
   by decide, by decide, by decide, rfl, rfl, by decide, by decide⟩

/-- C2 as amended: uploading a 100-byte text-kind file yields
`fileChars = 100` (the raw byte length) in the success response, and the
client-displayed `chars` metric equals that same `fileChars` value of 100
once the response returns (it matches the decoded character count only
for length-preserving encodings such as ASCII). -/
theorem C2_amended_client_shows_byte_length (o : Oracles) (f : UploadedFile)
    (m ft : Option String) (h100 : f.bytes.length = 100)
    (h1 : ft ≠ some "pdf") (h2 : ft ≠ some "image") (body : SuccessBody)
    (hok : POST o (.multipart (some f) m ft) = .ok body) :
    body.fileChars = 100 ∧
    ∃ res : FileAnalysisResult,
      handleAnalyzeFile (some f) (outcomeOfResponse (.ok body)) = some res ∧
      res.stats.chars = 100 := by
  have hfc : body.fileChars = 100 := by
    rw [POST_text_file_fileChars o f m ft h1 h2 body hok, h100]
  refine ⟨hfc, ⟨⟨some (displayedTokens body.input_tokens), body.gpt4oTokens,
    body.geminiTokens, if body.fileChars = 0 then 0 else body.fileChars, some f.name⟩, none⟩,
    rfl, ?_⟩
  simp [hfc]

/-- Witness for the amended C2 at the concrete 100-byte file. -/
theorem C2_witness :
    (⟨5, 100, DEFAULT_MODEL, some 8, some 9⟩ : SuccessBody).fileChars = 100 ∧
    ∃ res : FileAnalysisResult,
      handleAnalyzeFile (some exFile100)
        (outcomeOfResponse (.ok ⟨5, 100, DEFAULT_MODEL, some 8, some 9⟩)) = some res ∧
      res.stats.chars = 100 :=
  C2_amended_client_shows_byte_length okOracle exFile100 none (some "text")
    (by decide) (by decide) (by decide) _ (by decide)

/-- C5: for every text payload (JSON text, or an uploaded file treated as
text), when the mandatory Anthropic text call succeeds the request
succeeds with that primary count whatever the estimators do, the
response's estimator fields are exactly the two estimator results, a
throwing GPT-4o encoder yields `null` for `gpt4oTokens` alone, and an
absent Gemini credential or throwing Gemini call yields `null` for
`geminiTokens` alone. -/
theorem C5_partial_failure_tolerance (o : Oracles) (req : ApiRequest) (t : String)
    (ht : textPayloadOf req = some t) (n : Nat)
    (hp : o.countTextTokens (modelOf req) t = .ok n) :
    ∃ body : SuccessBody,
      POST o req = .ok body ∧ body.input_tokens = n ∧
      body.gpt4oTokens = getGPT4oTokenCount o t ∧
      body.geminiTokens = getGeminiTokenCount o t ∧
      ((∃ e, o.gpt4oEncodeLen t = .error e) → body.gpt4oTokens = none) ∧
      ((o.geminiKeyPresent = false ∨ ∃ e, o.geminiCount t = .error e) →
        body.geminiTokens = none) := by
  cases req with
  | multipart file m ft =>
    cases file with
    | some f =>
      by_cases hpdf : ft = some "pdf"
      · rw [textPayloadOf, if_pos hpdf] at ht
        cases ht
      · by_cases himg : ft = some "image"
        · rw [textPayloadOf, if_neg hpdf, if_pos himg] at ht
          cases ht
        · rw [textPayloadOf, if_neg hpdf, if_neg himg, Option.some.injEq] at ht
          simp only [modelOf] at hp
          subst ht
          refine ⟨⟨n, f.bytes.length, jsStrOr m DEFAULT_MODEL,
            getGPT4oTokenCount o (utf8DecodeStr f.bytes),
            getGeminiTokenCount o (utf8DecodeStr f.bytes)⟩, ?_, rfl, rfl, rfl,
            fun h => getGPT4oTokenCount_eq_none h,
            fun h => getGeminiTokenCount_eq_none h⟩
          rw [POST_text_file o f m ft hpdf himg, hp]
    | none =>
      rw [textPayloadOf] at ht
      cases ht
  | jsonBody textOpt modelOpt =>
    rw [textPayloadOf, Option.some.injEq] at ht
    simp only [modelOf] at hp
    subst ht
    refine ⟨⟨n, 0, jsStrOr modelOpt DEFAULT_MODEL,
      getGPT4oTokenCount o (jsStrOr textOpt ""),
      getGeminiTokenCount o (jsStrOr textOpt "")⟩, ?_, rfl, rfl, rfl,
      fun h => getGPT4oTokenCount_eq_none h,
      fun h => getGeminiTokenCount_eq_none h⟩
    simp only [POST]
    rw [hp]

/-- Witness for C5: a JSON text request in the degraded vendor environment
(throwing GPT-4o encoder, absent Gemini key) still succeeds with the
primary count and `null` estimator fields. -/
theorem C5_witness :
    ∃ body : SuccessBody,
      POST degradedOracle (.jsonBody (some "hi") none) = .ok body ∧
      body.input_tokens = 42 ∧
      body.gpt4oTokens = getGPT4oTokenCount degradedOracle "hi" ∧
      body.geminiTokens = getGeminiTokenCount degradedOracle "hi" ∧
      ((∃ e, degradedOracle.gpt4oEncodeLen "hi" = .error e) →
        body.gpt4oTokens = none) ∧
      ((degradedOracle.geminiKeyPresent = false ∨
        ∃ e, degradedOracle.geminiCount "hi" = .error e) → body.geminiTokens = none) :=
  C5_partial_failure_tolerance degradedOracle (.jsonBody (some "hi") none) "hi"
    (by decide) 42 rfl

end ClaudeTokenizer
